import Mathlib

/-!
Verification of the `GoogleStaticMaps` client
(`src/spending_money_on_apis/google_maps.py`) and the configuration helper
(`src/spending_money_on_apis/config.py`).

The Python code is shallowly embedded: dictionaries become association
lists, bytes become lists of naturals, the `requests.get` transport is an
input (the `HttpResponse` the transport produced), raised exceptions become
explicit outcome constructors, and filesystem writes become an explicit
effect trace.
-/

namespace SpendingMoneyOnApis

/-! ### Percent encoding (`urllib.parse.urlencode` with its defaults)

Both `requests.get(url, params=...)` and `get_map_url`'s `urlencode(params)`
encode each key and value with `quote_plus` over `safe=''`: ASCII
alphanumerics and `_.-~` pass through, a space becomes `+`, every other
character is emitted as uppercase `%XX` percent escapes of its UTF-8 bytes.
-/

/-- Uppercase hexadecimal digit for a value below 16. -/
def hexDigit (n : Nat) : Char :=
  if n < 10 then Char.ofNat (48 + n) else Char.ofNat (55 + n)

/-- UTF-8 bytes of a Unicode code point, as naturals below 256. -/
def utf8Bytes (n : Nat) : List Nat :=
  if n < 128 then [n]
  else if n < 2048 then [192 + n / 64, 128 + n % 64]
  else if n < 65536 then [224 + n / 4096, 128 + (n / 64) % 64, 128 + n % 64]
  else [240 + n / 262144, 128 + (n / 4096) % 64, 128 + (n / 64) % 64, 128 + n % 64]

/-- One percent-escaped byte, e.g. 44 becomes "%2C". -/
def percentByte (b : Nat) : String :=
  String.mk ['%', hexDigit (b / 16), hexDigit (b % 16)]

/-- Characters `quote_plus` leaves unescaped when `safe=''`. -/
def plusSafe (c : Char) : Bool :=
  c.isAlphanum || c == '_' || c == '.' || c == '-' || c == '~'

/-- `urllib.parse.quote_plus(s, safe='')`. -/
def quotePlus (s : String) : String :=
  String.join (s.toList.map fun c =>
    if c == ' ' then "+"
    else if plusSafe c then String.mk [c]
    else String.join ((utf8Bytes c.toNat).map percentByte))

/-- `urllib.parse.urlencode` over already-stringified pairs. -/
def urlencodePairs (pairs : List (String × String)) : String :=
  String.intercalate "&" (pairs.map fun kv => quotePlus kv.1 ++ "=" ++ quotePlus kv.2)

/-! ### Marker encoding (`get_map`, the loop over `markers`) -/

/-- A marker specification: a Python `Dict[str, str]`, embedded as an
association list with `List.lookup` as `marker[key]` / `key in marker`. -/
abbrev Marker := List (String × String)

/-- The per-marker body of the loop in `get_map`: style keys in the fixed
order `color`, `label`, `size` rendered as `key:value` when present,
then the raw `location` value when present. -/
def markerParts (m : Marker) : List String :=
  (["color", "label", "size"].filterMap fun k =>
    (m.lookup k).map fun v => k ++ ":" ++ v)
  ++ (m.lookup "location").toList

/-- `"|".join(marker_parts)`. -/
def encodeMarker (m : Marker) : String :=
  String.intercalate "|" (markerParts m)

/-! ### Request parameters of `get_map` -/

/-- A parameter value: Python strings, ints, or the list of per-marker
strings assigned to `params["markers"]`. -/
inductive PValue where
  | str : String → PValue
  | int : Int → PValue
  | strList : List String → PValue
deriving DecidableEq, Repr

/-- `str(v)` as applied by `urlencode` without `doseq` (strings unchanged,
ints in decimal, lists via Python `repr`). -/
def pvalueStr : PValue → String
  | .str s => s
  | .int n => toString n
  | .strList l => "[" ++ String.intercalate ", " (l.map fun s => "'" ++ s ++ "'") ++ "]"

/-- The keyword arguments of `get_map`, with the Python defaults. -/
structure GetMapArgs where
  center : Option String := none
  zoom : Int := 13
  size : String := "600x400"
  maptype : String := "roadmap"
  markers : Option (List Marker) := none
  path : Option String := none

/-- The `if center: params["center"] = center` block (Python truthiness:
present and non-empty). -/
def centerParams (a : GetMapArgs) : List (String × PValue) :=
  match a.center with
  | some c => if c = "" then [] else [("center", PValue.str c)]
  | none => []

/-- The `if markers:` block: each marker encoded by the loop, and the
whole list only added when `markers` is present and non-empty. -/
def markersParams (a : GetMapArgs) : List (String × PValue) :=
  match a.markers with
  | some ms => if ms = [] then [] else
      [("markers", PValue.strList (ms.map encodeMarker))]
  | none => []

/-- The `if path: params["path"] = path` block. -/
def pathParams (a : GetMapArgs) : List (String × PValue) :=
  match a.path with
  | some p => if p = "" then [] else [("path", PValue.str p)]
  | none => []

/-- The `params` dict built inside `get_map`, in insertion order: the base
entries `key`, `size`, `maptype`, `zoom`, then `center`, `markers`, `path`,
each added only when the corresponding argument is truthy (a non-None,
non-empty string or list). -/
def getMapParams (apiKey : String) (a : GetMapArgs) : List (String × PValue) :=
  [("key", PValue.str apiKey), ("size", PValue.str a.size),
   ("maptype", PValue.str a.maptype), ("zoom", PValue.int a.zoom)]
  ++ centerParams a ++ markersParams a ++ pathParams a

/-- How `requests` turns the params dict into query pairs: a list value
contributes one pair per element under the same key, scalars contribute
one stringified pair (`urlencode(..., doseq=True)`). -/
def expandParams (ps : List (String × PValue)) : List (String × String) :=
  ps.flatMap fun kv =>
    match kv.2 with
    | .str s => [(kv.1, s)]
    | .int n => [(kv.1, toString n)]
    | .strList l => l.map fun s => (kv.1, s)

/-- The percent-encoded query pairs `requests.get` sends for a `get_map`
call, in order. -/
def getMapSentPairs (apiKey : String) (a : GetMapArgs) : List (String × String) :=
  (expandParams (getMapParams apiKey a)).map fun kv =>
    (quotePlus kv.1, quotePlus kv.2)

/-! ### The fetch itself: status check, persistence -/

/-- The transport's response: status code and body bytes. -/
structure HttpResponse where
  status : Nat
  content : List Nat

/-- What a `get_map` call yields.  `raisedHTTPError` embeds the
`requests.HTTPError` raised by `response.raise_for_status()`; the original
response is attached to that exception (`HTTPError(msg, response=self)`),
so the constructor carries the status code and the body. -/
inductive FetchOutcome where
  | ok : List Nat → FetchOutcome
  | persisted : FetchOutcome
  | raisedHTTPError : Nat → List Nat → FetchOutcome
deriving DecidableEq, Repr

/-- A filesystem side effect of `get_map`. `mkdirParents p` stands for
`Path(p).parent.mkdir(parents=True, exist_ok=True)`; `write p bytes` for
`Path(p).write_bytes(bytes)`. -/
inductive FsEffect where
  | mkdirParents : String → FsEffect
  | write : String → List Nat → FsEffect
deriving DecidableEq, Repr

/-- `raise_for_status` raises exactly for client (4xx) and server (5xx)
error statuses. -/
def raisesForStatus (status : Nat) : Bool :=
  (400 ≤ status && status < 500) || (500 ≤ status && status < 600)

/-- `get_map` after the transport returned `resp`: raise on 4xx/5xx;
otherwise persist to `save_as` (when truthy) and return `True`, or return
the body bytes with no filesystem effect. -/
def get_map (save_as : Option String) (resp : HttpResponse) :
    FetchOutcome × List FsEffect :=
  if raisesForStatus resp.status then
    (.raisedHTTPError resp.status resp.content, [])
  else
    match save_as with
    | some p =>
        if p = "" then (.ok resp.content, [])
        else (.persisted, [.mkdirParents p, .write p resp.content])
    | none => (.ok resp.content, [])

/-! ### Construction and configuration (`__init__`, `get_api_key`) -/

/-- `get_api_key` from `config.py`: `os.getenv`, then `if not value: raise
ValueError(f"{key_name} not found. Please set it in local/.env")`.  The
raised `ValueError` is embedded as `Except.error` carrying its message. -/
def get_api_key (env : String → Option String) (key_name : String) :
    Except String String :=
  match env key_name with
  | some v =>
      if v = "" then
        Except.error (key_name ++ " not found. Please set it in local/.env")
      else Except.ok v
  | none => Except.error (key_name ++ " not found. Please set it in local/.env")

/-- `GoogleStaticMaps.__init__`: keep a truthy explicit `api_key`,
otherwise resolve `GOOGLE_MAPS_API_KEY` through `get_api_key`.  Yields the
credential the constructed client holds, or the construction error. -/
def initClient (env : String → Option String) (api_key : Option String) :
    Except String String :=
  match api_key with
  | some k => if k = "" then get_api_key env "GOOGLE_MAPS_API_KEY" else Except.ok k
  | none => get_api_key env "GOOGLE_MAPS_API_KEY"

/-! ### `get_map_url` -/

/-- The base endpoint held by every client. -/
def baseUrl : String := "https://maps.googleapis.com/maps/api/staticmap"

/-- Python `params[k] = v` on a dict embedded as an association list:
replace in place when the key exists, append otherwise. -/
def setItem (ps : List (String × PValue)) (k : String) (v : PValue) :
    List (String × PValue) :=
  if ps.any (fun kv => kv.1 == k) then
    ps.map fun kv => if kv.1 == k then (k, v) else kv
  else ps ++ [(k, v)]

/-- The params dict built by `get_map_url`: the kwargs whose value is not
`None`, then `params["key"] = self.api_key`.  No defaults are applied and
no marker serialization happens here. -/
def getMapUrlParams (apiKey : String) (kwargs : List (String × Option PValue)) :
    List (String × PValue) :=
  setItem (kwargs.filterMap fun kv => kv.2.map fun u => (kv.1, u))
    "key" (PValue.str apiKey)

/-- The percent-encoded query pairs appearing in the URL `get_map_url`
returns, in order (`urlencode(params)` without `doseq`). -/
def getMapUrlPairs (apiKey : String) (kwargs : List (String × Option PValue)) :
    List (String × String) :=
  (getMapUrlParams apiKey kwargs).map fun kv =>
    (quotePlus kv.1, quotePlus (pvalueStr kv.2))

/-- The full string `get_map_url` returns. -/
def get_map_url (apiKey : String) (kwargs : List (String × Option PValue)) :
    String :=
  baseUrl ++ "?" ++ urlencodePairs
    ((getMapUrlParams apiKey kwargs).map fun kv => (kv.1, pvalueStr kv.2))

/-! ## Theorems -/

/-- Helper: `filterMap` over a cons, expressed through `Option.toList`. -/
theorem filterMap_cons_eq_toList_append {α β : Type} (f : α → Option β)
    (x : α) (l : List α) :
    List.filterMap f (x :: l) = (f x).toList ++ List.filterMap f l := by
  cases h : f x <;> simp [h]

/-- Helper: a success status (below 400) never triggers
`raise_for_status`. -/
theorem raisesForStatus_eq_false_of_lt {s : Nat} (hs : s < 400) :
    raisesForStatus s = false := by
  simp only [raisesForStatus, Bool.or_eq_false_iff, Bool.and_eq_false_iff,
    decide_eq_false_iff_not]
  omega

/-- Claim C8: a marker containing none of the recognized keys encodes to
the empty string segment, and the encoding is a total function, so it
cannot fail on such input. -/
theorem C8_no_recognized_keys_empty_segment (m : Marker)
    (hc : m.lookup "color" = none) (hl : m.lookup "label" = none)
    (hs : m.lookup "size" = none) (hloc : m.lookup "location" = none) :
    encodeMarker m = "" := by
  simp [encodeMarker, markerParts, hc, hl, hs, hloc, String.intercalate]

/-- Witness for C8 at the marker with the single unrecognized key
`foo`. -/
theorem C8_no_recognized_keys_empty_segment_witness :
    encodeMarker [("foo", "bar")] = "" :=
  C8_no_recognized_keys_empty_segment [("foo", "bar")] rfl rfl rfl rfl

/-- Claim C3: when the transport returns a 4xx/5xx status (the range
`raise_for_status` classifies as failure), `get_map` yields the
raised-HTTPError outcome carrying the original status code and the body
bytes unmodified (the `requests.HTTPError` carries the response object,
so both stay inspectable), and it performs no filesystem write. -/
theorem C3_non_success_yields_failure_with_payload (save_as : Option String)
    (resp : HttpResponse) (h1 : 400 ≤ resp.status) (h2 : resp.status < 600) :
    get_map save_as resp =
      (FetchOutcome.raisedHTTPError resp.status resp.content, []) := by
  have h : raisesForStatus resp.status = true := by
    simp only [raisesForStatus, Bool.or_eq_true, Bool.and_eq_true,
      decide_eq_true_eq]
    omega
  simp [get_map, h]

/-- Witness for C3 at a 404 response with body `[9, 9]` and a save
destination. -/
theorem C3_non_success_yields_failure_with_payload_witness :
    400 ≤ 404 ∧ 404 < 600 ∧
    get_map (some "m.png") ⟨404, [9, 9]⟩ =
      (FetchOutcome.raisedHTTPError 404 [9, 9], []) :=
  ⟨by decide, by decide,
    C3_non_success_yields_failure_with_payload (some "m.png") ⟨404, [9, 9]⟩
      (by decide) (by decide)⟩

/-- Claim C5: with no explicit credential and no resolvable (non-empty)
configuration value, construction fails with an error whose message
contains the expected key name `GOOGLE_MAPS_API_KEY`; an explicit
non-empty credential, or a resolvable non-empty configured one, makes
construction succeed with that credential. -/
theorem C5_missing_credential_errors (env env2 : String → Option String)
    (v k : String)
    (hmiss : env "GOOGLE_MAPS_API_KEY" = none ∨
      env "GOOGLE_MAPS_API_KEY" = some "")
    (hv : env2 "GOOGLE_MAPS_API_KEY" = some v) (hvne : v ≠ "") (hk : k ≠ "") :
    (∃ rest, initClient env none =
      Except.error ("GOOGLE_MAPS_API_KEY" ++ rest)) ∧
    initClient env2 none = Except.ok v ∧
    initClient env (some k) = Except.ok k := by
  refine ⟨⟨" not found. Please set it in local/.env", ?_⟩, ?_, ?_⟩
  · rcases hmiss with h | h <;> simp [initClient, get_api_key, h]
  · simp [initClient, get_api_key, hv, hvne]
  · simp [initClient, hk]

/-- Witness for C5: an empty environment rejects construction, a
populated one accepts it, and so does an explicit key. -/
theorem C5_missing_credential_errors_witness :
    (∃ rest, initClient (fun _ => none) none =
      Except.error ("GOOGLE_MAPS_API_KEY" ++ rest)) ∧
    initClient (fun _ => some "V") none = Except.ok "V" ∧
    initClient (fun _ => none) (some "k1") = Except.ok "k1" :=
  C5_missing_credential_errors (fun _ => none) (fun _ => some "V") "V" "k1"
    (Or.inl rfl) rfl (by decide) (by decide)

/-- Helper: a credential successfully obtained from `get_api_key` is
never the empty string (the `if not value` guard rejects it). -/
theorem get_api_key_ok_ne_empty (env : String → Option String)
    (kn v : String) (h : get_api_key env kn = Except.ok v) : v ≠ "" := by
  unfold get_api_key at h
  cases he : env kn <;> rw [he] at h
  · exact absurd h (by simp)
  · next w =>
      by_cases hw : w = ""
      · simp [hw] at h
      · simp [hw] at h
        subst h
        exact hw

/-- Claim C9: an explicit empty-string credential falls back to the
configuration lookup exactly like an omitted one; an empty configured
value is likewise treated as absent and raises the missing-credential
error; consequently every successfully constructed client holds a
non-empty credential. -/
theorem C9_empty_credential_falls_back (env env2 : String → Option String)
    (op : Option String) (v : String)
    (hempty : env "GOOGLE_MAPS_API_KEY" = some "")
    (hok : initClient env2 op = Except.ok v) :
    initClient env (some "") = initClient env none ∧
    (∃ rest, initClient env (some "") =
      Except.error ("GOOGLE_MAPS_API_KEY" ++ rest)) ∧
    v ≠ "" := by
  refine ⟨by simp [initClient], ⟨" not found. Please set it in local/.env",
    by simp [initClient, get_api_key, hempty]⟩, ?_⟩
  cases op with
  | none => exact get_api_key_ok_ne_empty env2 "GOOGLE_MAPS_API_KEY" v hok
  | some k =>
      simp only [initClient] at hok
      by_cases hkk : k = ""
      · rw [if_pos hkk] at hok
        exact get_api_key_ok_ne_empty env2 "GOOGLE_MAPS_API_KEY" v hok
      · rw [if_neg hkk] at hok
        cases hok
        exact hkk

/-- Witness for C9: the all-empty environment, and a successful
construction from a populated environment yielding the non-empty
credential `V`. -/
theorem C9_empty_credential_falls_back_witness :
    initClient (fun _ => some "") (some "") =
      initClient (fun _ => some "") none ∧
    (∃ rest, initClient (fun _ => some "") (some "") =
      Except.error ("GOOGLE_MAPS_API_KEY" ++ rest)) ∧
    ("V" : String) ≠ "" :=
  C9_empty_credential_falls_back (fun _ => some "") (fun _ => some "V")
    none "V" rfl (by simp [initClient, get_api_key])

/-- Claim C6: on a success-status response, a truthy destination makes
`get_map` create the destination's missing parent directories, write the
response bytes verbatim to exactly that path, and signal persistence
instead of returning the bytes; with no destination it returns the bytes
and performs no filesystem effect at all. -/
theorem C6_destination_persistence (resp : HttpResponse)
    (hs : resp.status < 400) (p : String) (hp : p ≠ "") :
    get_map (some p) resp = (FetchOutcome.persisted,
      [FsEffect.mkdirParents p, FsEffect.write p resp.content]) ∧
    get_map none resp = (FetchOutcome.ok resp.content, []) := by
  have h := raisesForStatus_eq_false_of_lt hs
  constructor <;> simp [get_map, h, hp]

/-- Witness for C6 at a 200 response with body `[7, 8]` and destination
`out/a.png`. -/
theorem C6_destination_persistence_witness :
    get_map (some "out/a.png") ⟨200, [7, 8]⟩ = (FetchOutcome.persisted,
      [FsEffect.mkdirParents "out/a.png", FsEffect.write "out/a.png" [7, 8]]) ∧
    get_map none ⟨200, [7, 8]⟩ = (FetchOutcome.ok [7, 8], []) :=
  C6_destination_persistence ⟨200, [7, 8]⟩ (by decide) "out/a.png" (by decide)

/-- Helper: membership in the `center` block. -/
theorem mem_centerParams_iff (a : GetMapArgs) (kv : String × PValue) :
    kv ∈ centerParams a ↔
      ∃ c, a.center = some c ∧ c ≠ "" ∧ kv = ("center", PValue.str c) := by
  unfold centerParams
  cases a.center with
  | none => simp
  | some c => by_cases h : c = "" <;> simp [h]

/-- Helper: membership in the `markers` block. -/
theorem mem_markersParams_iff (a : GetMapArgs) (kv : String × PValue) :
    kv ∈ markersParams a ↔
      ∃ ms, a.markers = some ms ∧ ms ≠ [] ∧
        kv = ("markers", PValue.strList (ms.map encodeMarker)) := by
  unfold markersParams
  cases a.markers with
  | none => simp
  | some ms => by_cases h : ms = [] <;> simp [h]

/-- Helper: membership in the `path` block. -/
theorem mem_pathParams_iff (a : GetMapArgs) (kv : String × PValue) :
    kv ∈ pathParams a ↔
      ∃ p, a.path = some p ∧ p ≠ "" ∧ kv = ("path", PValue.str p) := by
  unfold pathParams
  cases a.path with
  | none => simp
  | some p => by_cases h : p = "" <;> simp [h]

/-- Helper: membership in the whole params dict, block by block. -/
theorem mem_getMapParams_iff (apiKey : String) (a : GetMapArgs)
    (kv : String × PValue) :
    kv ∈ getMapParams apiKey a ↔
      kv = ("key", PValue.str apiKey) ∨ kv = ("size", PValue.str a.size) ∨
      kv = ("maptype", PValue.str a.maptype) ∨
      kv = ("zoom", PValue.int a.zoom) ∨
      kv ∈ centerParams a ∨ kv ∈ markersParams a ∨ kv ∈ pathParams a := by
  simp [getMapParams, List.mem_append, or_assoc]

/-- Claim C7: a marker list with zero entries makes the built request
omit the `markers` parameter entirely: no key of the params dict is
`markers`. -/
theorem C7_empty_marker_list_omits_markers (apiKey : String) (a : GetMapArgs)
    (h : a.markers = some []) :
    "markers" ∉ (getMapParams apiKey a).map Prod.fst := by
  intro hmem
  rw [List.mem_map] at hmem
  obtain ⟨kv, hkv, hfst⟩ := hmem
  rw [mem_getMapParams_iff] at hkv
  rcases hkv with hk | hk | hk | hk | hk | hk | hk
  · rw [hk] at hfst; simp at hfst
  · rw [hk] at hfst; simp at hfst
  · rw [hk] at hfst; simp at hfst
  · rw [hk] at hfst; simp at hfst
  · obtain ⟨c, _, _, rfl⟩ := (mem_centerParams_iff a kv).mp hk
    simp at hfst
  · obtain ⟨ms, hms, hne, rfl⟩ := (mem_markersParams_iff a kv).mp hk
    rw [h] at hms
    cases hms
    exact hne rfl
  · obtain ⟨p, _, _, rfl⟩ := (mem_pathParams_iff a kv).mp hk
    simp at hfst

/-- Witness for C7 at the empty marker list. -/
theorem C7_empty_marker_list_omits_markers_witness :
    "markers" ∉ (getMapParams "k" { markers := some [] }).map Prod.fst :=
  C7_empty_marker_list_omits_markers "k" { markers := some [] } rfl

/-- Helper: when the `center` parameter key appears in the params dict. -/
theorem center_presence_iff (apiKey : String) (a : GetMapArgs) :
    (∃ v, ("center", v) ∈ getMapParams apiKey a) ↔
      ∃ c, a.center = some c ∧ c ≠ "" := by
  constructor
  · rintro ⟨v, hv⟩
    rw [mem_getMapParams_iff] at hv
    simp only [mem_centerParams_iff, mem_markersParams_iff, mem_pathParams_iff,
      Prod.mk.injEq] at hv
    simp at hv
    obtain ⟨c, hc, hcne, _⟩ := hv
    exact ⟨c, hc, hcne⟩
  · rintro ⟨c, hc, hcne⟩
    refine ⟨PValue.str c, ?_⟩
    rw [mem_getMapParams_iff]
    exact Or.inr (Or.inr (Or.inr (Or.inr (Or.inl
      ((mem_centerParams_iff a _).mpr ⟨c, hc, hcne, rfl⟩)))))

/-- Helper: when the `markers` parameter key appears in the params
dict. -/
theorem markers_presence_iff (apiKey : String) (a : GetMapArgs) :
    (∃ v, ("markers", v) ∈ getMapParams apiKey a) ↔
      ∃ ms, a.markers = some ms ∧ ms ≠ [] := by
  constructor
  · rintro ⟨v, hv⟩
    rw [mem_getMapParams_iff] at hv
    simp only [mem_centerParams_iff, mem_markersParams_iff, mem_pathParams_iff,
      Prod.mk.injEq] at hv
    simp at hv
    obtain ⟨ms, hms, hne, _⟩ := hv
    exact ⟨ms, hms, hne⟩
  · rintro ⟨ms, hms, hne⟩
    refine ⟨PValue.strList (ms.map encodeMarker), ?_⟩
    rw [mem_getMapParams_iff]
    exact Or.inr (Or.inr (Or.inr (Or.inr (Or.inr (Or.inl
      ((mem_markersParams_iff a _).mpr ⟨ms, hms, hne, rfl⟩))))))

/-- Helper: when the `path` parameter key appears in the params dict. -/
theorem path_presence_iff (apiKey : String) (a : GetMapArgs) :
    (∃ v, ("path", v) ∈ getMapParams apiKey a) ↔
      ∃ p, a.path = some p ∧ p ≠ "" := by
  constructor
  · rintro ⟨v, hv⟩
    rw [mem_getMapParams_iff] at hv
    simp only [mem_centerParams_iff, mem_markersParams_iff, mem_pathParams_iff,
      Prod.mk.injEq] at hv
    simp at hv
    obtain ⟨p, hp, hpne, _⟩ := hv
    exact ⟨p, hp, hpne⟩
  · rintro ⟨p, hp, hpne⟩
    refine ⟨PValue.str p, ?_⟩
    rw [mem_getMapParams_iff]
    exact Or.inr (Or.inr (Or.inr (Or.inr (Or.inr (Or.inr
      ((mem_pathParams_iff a _).mpr ⟨p, hp, hpne, rfl⟩))))))

/-- Claim C10: every built request contains the four keys `key`, `size`,
`maptype`, `zoom` (with the declared defaults `600x400`, `roadmap`, `13`
when the caller gives nothing), while `center`, `markers`, `path` appear
exactly when the caller passes a truthy value for them. -/
theorem C10_always_present_keys (apiKey : String) (a : GetMapArgs) :
    (getMapParams apiKey a).lookup "key" = some (PValue.str apiKey) ∧
    (getMapParams apiKey a).lookup "size" = some (PValue.str a.size) ∧
    (getMapParams apiKey a).lookup "maptype" = some (PValue.str a.maptype) ∧
    (getMapParams apiKey a).lookup "zoom" = some (PValue.int a.zoom) ∧
    ((∃ v, ("center", v) ∈ getMapParams apiKey a) ↔
      ∃ c, a.center = some c ∧ c ≠ "") ∧
    ((∃ v, ("markers", v) ∈ getMapParams apiKey a) ↔
      ∃ ms, a.markers = some ms ∧ ms ≠ []) ∧
    ((∃ v, ("path", v) ∈ getMapParams apiKey a) ↔
      ∃ p, a.path = some p ∧ p ≠ "") ∧
    ({} : GetMapArgs).size = "600x400" ∧
    ({} : GetMapArgs).maptype = "roadmap" ∧ ({} : GetMapArgs).zoom = 13 := by
  refine ⟨?_, ?_, ?_, ?_, center_presence_iff apiKey a,
    markers_presence_iff apiKey a, path_presence_iff apiKey a, rfl, rfl, rfl⟩
  all_goals simp [getMapParams, List.lookup]

/-- Helper: query-pair expansion distributes over dict concatenation. -/
theorem expandParams_append (l1 l2 : List (String × PValue)) :
    expandParams (l1 ++ l2) = expandParams l1 ++ expandParams l2 := by
  simp [expandParams]

/-- Helper: the `center` block contributes no `markers` query pair. -/
theorem filter_markers_centerParams (a : GetMapArgs) :
    (expandParams (centerParams a)).filter (fun kv => kv.1 == "markers")
      = [] := by
  unfold centerParams
  cases a.center with
  | none => rfl
  | some c => by_cases hc : c = "" <;> simp [hc, expandParams]

/-- Helper: the `path` block contributes no `markers` query pair. -/
theorem filter_markers_pathParams (a : GetMapArgs) :
    (expandParams (pathParams a)).filter (fun kv => kv.1 == "markers")
      = [] := by
  unfold pathParams
  cases a.path with
  | none => rfl
  | some p => by_cases hp : p = "" <;> simp [hp, expandParams]

/-- Helper: repeated `markers` pairs filter back to their values. -/
theorem filter_marker_pairs (l : List String) :
    ((l.map (fun s => ("markers", s))).filter
      (fun kv => kv.1 == "markers")).map Prod.snd = l := by
  induction l with
  | nil => rfl
  | cons x xs ih => simp [ih]

/-- Claim C1: for a non-empty marker list the expanded query contains
exactly one `markers` pair per input marker, in order; each marker's
encoded string lists the style keys in the fixed order `color`, `label`,
`size` (each as `key:value`, included only when present) followed by the
location value when present, joined by `|`; a marker with only `location`
set encodes to exactly its location string, with no leading `|`. -/
theorem C1_one_markers_entry_per_marker (apiKey : String) (a : GetMapArgs)
    (ms : List Marker) (h : a.markers = some ms) (hne : ms ≠ []) :
    ((expandParams (getMapParams apiKey a)).filter
        (fun kv => kv.1 == "markers")).map Prod.snd = ms.map encodeMarker ∧
    (∀ m ∈ ms, encodeMarker m = String.intercalate "|"
      (((m.lookup "color").map (fun v => "color:" ++ v)).toList ++
       ((m.lookup "label").map (fun v => "label:" ++ v)).toList ++
       ((m.lookup "size").map (fun v => "size:" ++ v)).toList ++
       (m.lookup "location").toList)) ∧
    (∀ m ∈ ms, m.lookup "color" = none → m.lookup "label" = none →
      m.lookup "size" = none → ∀ loc, m.lookup "location" = some loc →
      encodeMarker m = loc) := by
  refine ⟨?_, ?_, ?_⟩
  · have hmk : markersParams a =
        [("markers", PValue.strList (ms.map encodeMarker))] := by
      unfold markersParams
      rw [h]
      show (if ms = [] then [] else
        [("markers", PValue.strList (ms.map encodeMarker))]) =
        [("markers", PValue.strList (ms.map encodeMarker))]
      rw [if_neg hne]
    rw [getMapParams, expandParams_append, expandParams_append,
      expandParams_append, hmk]
    simp only [List.filter_append, filter_markers_centerParams,
      filter_markers_pathParams, List.map_append]
    have hbase : (expandParams [("key", PValue.str apiKey),
        ("size", PValue.str a.size), ("maptype", PValue.str a.maptype),
        ("zoom", PValue.int a.zoom)]).filter
        (fun kv => kv.1 == "markers") = [] := by
      simp [expandParams]
    rw [hbase]
    have hexp : expandParams [("markers",
        PValue.strList (ms.map encodeMarker))] =
        (ms.map encodeMarker).map (fun s => ("markers", s)) := by
      simp [expandParams]
    rw [hexp, filter_marker_pairs]
    simp
  · intro m _
    simp [encodeMarker, markerParts, filterMap_cons_eq_toList_append]
  · intro m _ hc hl hs loc hloc
    have hone : String.intercalate "|" [loc] = loc := rfl
    simp [encodeMarker, markerParts, filterMap_cons_eq_toList_append,
      hc, hl, hs, hloc, hone]

/-- Witness for C1 at a two-marker list: a styled marker and a
location-only marker. -/
theorem C1_one_markers_entry_per_marker_witness :
    ((expandParams (getMapParams "k"
        { markers := some [[("color", "red"), ("label", "G"),
            ("location", "GG")], [("location", "here")]] })).filter
        (fun kv => kv.1 == "markers")).map Prod.snd =
      ["color:red|label:G|GG", "here"] ∧
    encodeMarker [("location", "here")] = "here" := by
  have h := C1_one_markers_entry_per_marker "k"
    { markers := some [[("color", "red"), ("label", "G"),
        ("location", "GG")], [("location", "here")]] }
    [[("color", "red"), ("label", "G"), ("location", "GG")],
     [("location", "here")]] rfl (by decide)
  refine ⟨?_, ?_⟩
  · rw [h.1]
    decide
  · exact h.2.2 [("location", "here")] (by simp) rfl rfl rfl "here" rfl

/-- Claim C4 is false on the code: there is no marker validation and no
`EncodingError` anywhere in the client; a marker missing the required
`location` key is silently encoded (its style keys only) into the request
parameters, and the fetch then proceeds normally. -/
theorem C4_counterexample :
    encodeMarker [("color", "red")] = "color:red" ∧
    getMapParams "k" { markers := some [[("color", "red")]] } =
      [("key", PValue.str "k"), ("size", PValue.str "600x400"),
       ("maptype", PValue.str "roadmap"), ("zoom", PValue.int 13),
       ("markers", PValue.strList ["color:red"])] ∧
    get_map none ⟨200, [7]⟩ = (FetchOutcome.ok [7], []) := by
  decide

/-- Claim C4 amended: a marker missing the required `location` key is not
detected at parameter-build time; it is encoded as just its present style
keys (no location segment), and the request is issued anyway — with a
success-status response the fetch completes normally, raising no error. -/
theorem C4_amended_no_validation (save_as : Option String)
    (resp : HttpResponse) (hs : resp.status < 400) (m : Marker)
    (hm : m.lookup "location" = none) :
    encodeMarker m = String.intercalate "|"
      (["color", "label", "size"].filterMap fun k =>
        (m.lookup k).map fun v => k ++ ":" ++ v) ∧
    ((get_map save_as resp).1 = FetchOutcome.ok resp.content ∨
     (get_map save_as resp).1 = FetchOutcome.persisted) := by
  constructor
  · simp [encodeMarker, markerParts, hm]
  · have h := raisesForStatus_eq_false_of_lt hs
    cases save_as with
    | none => left; simp [get_map, h]
    | some p =>
        by_cases hp : p = ""
        · left; simp [get_map, h, hp]
        · right; simp [get_map, h, hp]

/-- Witness for C4 amended: the color-only marker, a 200 response, no
destination. -/
theorem C4_amended_no_validation_witness :
    encodeMarker [("color", "red")] = String.intercalate "|"
      (["color", "label", "size"].filterMap fun k =>
        ((List.lookup k [("color", "red")] : Option String)).map
          fun v => k ++ ":" ++ v) ∧
    ((get_map none ⟨200, [7]⟩).1 = FetchOutcome.ok [7] ∨
     (get_map none ⟨200, [7]⟩).1 = FetchOutcome.persisted) :=
  C4_amended_no_validation none ⟨200, [7]⟩ (by decide) [("color", "red")] rfl

/-- Claim C2 is false on the code: `get_map_url` applies none of
`get_map`'s defaults (`size`, `maptype`, `zoom`) and no marker
serialization, so for the empty kwargs dict its query pairs are not a
permutation of the pairs `get_map` would send with all-default
arguments. -/
theorem C2_counterexample :
    ¬ List.Perm (getMapUrlPairs "k" []) (getMapSentPairs "k" {}) := by
  decide

/-- Claim C2 amended: restricted to scalar parameters, with the caller
explicitly passing `get_map`'s effective `size`, `maptype`, `zoom` values
and truthy `center`/`path` options, `get_map_url` produces exactly the
query pairs (same credential injection under `key`, same percent-encoding)
that `get_map` would send, up to key ordering; the equivalence does not
extend to defaulted or marker parameters. -/
theorem C2_amended_scalar_agreement (apiKey sz mt : String) (zoom : Int)
    (center path : Option String)
    (hc : ∀ c, center = some c → c ≠ "")
    (hp : ∀ p, path = some p → p ≠ "") :
    List.Perm
      (getMapUrlPairs apiKey
        [("size", some (PValue.str sz)), ("maptype", some (PValue.str mt)),
         ("zoom", some (PValue.int zoom)),
         ("center", Option.map PValue.str center),
         ("path", Option.map PValue.str path)])
      (getMapSentPairs apiKey
        { center := center, zoom := zoom, size := sz, maptype := mt,
          markers := none, path := path }) := by
  cases center with
  | none =>
      cases path with
      | none =>
          simp [getMapUrlPairs, getMapUrlParams, setItem, getMapSentPairs,
            getMapParams, centerParams, markersParams, pathParams,
            expandParams, pvalueStr]
          exact List.perm_append_singleton (quotePlus "key", quotePlus apiKey)
            [(quotePlus "size", quotePlus sz), (quotePlus "maptype", quotePlus mt),
             (quotePlus "zoom", quotePlus (toString zoom))]
      | some p =>
          have hp' : p ≠ "" := hp p rfl
          simp [getMapUrlPairs, getMapUrlParams, setItem, getMapSentPairs,
            getMapParams, centerParams, markersParams, pathParams,
            expandParams, pvalueStr, hp']
          exact List.perm_append_singleton (quotePlus "key", quotePlus apiKey)
            [(quotePlus "size", quotePlus sz), (quotePlus "maptype", quotePlus mt),
             (quotePlus "zoom", quotePlus (toString zoom)),
             (quotePlus "path", quotePlus p)]
  | some c =>
      have hc' : c ≠ "" := hc c rfl
      cases path with
      | none =>
          simp [getMapUrlPairs, getMapUrlParams, setItem, getMapSentPairs,
            getMapParams, centerParams, markersParams, pathParams,
            expandParams, pvalueStr, hc']
          exact List.perm_append_singleton (quotePlus "key", quotePlus apiKey)
            [(quotePlus "size", quotePlus sz), (quotePlus "maptype", quotePlus mt),
             (quotePlus "zoom", quotePlus (toString zoom)),
             (quotePlus "center", quotePlus c)]
      | some p =>
          have hp' : p ≠ "" := hp p rfl
          simp [getMapUrlPairs, getMapUrlParams, setItem, getMapSentPairs,
            getMapParams, centerParams, markersParams, pathParams,
            expandParams, pvalueStr, hc', hp']
          exact List.perm_append_singleton (quotePlus "key", quotePlus apiKey)
            [(quotePlus "size", quotePlus sz), (quotePlus "maptype", quotePlus mt),
             (quotePlus "zoom", quotePlus (toString zoom)),
             (quotePlus "center", quotePlus c), (quotePlus "path", quotePlus p)]

/-- Witness for C2 amended: explicit scalars matching the defaults, a
center, no path. -/
theorem C2_amended_scalar_agreement_witness :
    List.Perm
      (getMapUrlPairs "tk"
        [("size", some (PValue.str "600x400")),
         ("maptype", some (PValue.str "roadmap")),
         ("zoom", some (PValue.int 13)),
         ("center", Option.map PValue.str (some "NY")),
         ("path", Option.map PValue.str none)])
      (getMapSentPairs "tk"
        { center := some "NY", zoom := 13, size := "600x400",
          maptype := "roadmap", markers := none, path := none }) :=
  C2_amended_scalar_agreement "tk" "600x400" "roadmap" 13 (some "NY") none
    (fun c hcc => by cases hcc; decide) (fun p hpp => by cases hpp)

end SpendingMoneyOnApis
